import Mathlib

/-!
Verification of the dimension-visibility and collision-consistency model of
the Quantum Jumper platformer, as a shallow embedding of the TypeScript
source (`src/game/utils/GameSceneBuilder.ts`, `src/game/constants.ts`,
`src/game/utils/PortalBuilder.ts` and the entity builders).

Dynamic JavaScript values that the source stores on sprites (the `dimension`,
`value`, `lives`, `score`, `lastActivated`, `effect` properties) are modelled
explicitly, including `undefined` and JavaScript truthiness, because the
source guards them with `||` fallbacks (`dimension || "both"`, `lives || 3`,
`value || 1`, `lastActivated && ...`) whose behaviour on the falsy values
`undefined` and `0` is essential to the observed semantics.
-/

namespace Quantum

/-- The numeric `Dimension` enum from `constants.ts` lines 48-51:
`LIGHT = 0`, `DARK = 1`. -/
inductive Dimension where
  | LIGHT
  | DARK
deriving DecidableEq, Fintype

/-- The number a `Dimension` enum member compiles to in JavaScript. -/
def Dimension.toNat : Dimension → Nat
  | .LIGHT => 0
  | .DARK => 1

/-- A JavaScript value held by the dynamic `dimension` property of a sprite:
a numeric `Dimension` enum member (as used by `CoinBuilder`, `PowerupBuilder`
and `PlatformBuilder`, which store `Dimension | "both"`), a string (as used
by `PortalBuilder`, which stores `"light" | "dark" | "both"`), or absent
(`undefined`). Equality of `DimValue` models JavaScript strict equality
`===`: values of different runtime types are never equal, numbers compare by
value, strings compare by content. -/
inductive DimValue where
  | num (d : Dimension)
  | str (s : String)
  | undef
deriving DecidableEq

/-- JavaScript truthiness of a `dimension` property value: the number `0`
(that is, `Dimension.LIGHT`), the empty string and `undefined` are falsy. -/
def DimValue.truthy : DimValue → Bool
  | .num d => d.toNat ≠ 0
  | .str s => s ≠ ""
  | .undef => false

/-- The fallback expression `(sprite as any).dimension || "both"` used at
`GameSceneBuilder.ts` lines 453, 755 and 868. -/
def dimOrBoth (v : DimValue) : DimValue :=
  if v.truthy then v else .str "both"

/-- JavaScript strict equality between a `dimension` property value and the
numeric `this.currentDimension` (a `Dimension` enum member): true only when
the property holds the same enum number; a string never equals a number. -/
def DimValue.eqDim (v : DimValue) (d : Dimension) : Bool :=
  match v with
  | .num d2 => d2 == d
  | .str _ => false
  | .undef => false

/-- `isObjectVisibleInCurrentDimension` from `GameSceneBuilder.ts`
lines 865-878, the interaction-time collision policy. -/
def isObjectVisibleInCurrentDimension
    (dimension : DimValue) (currentDimension : Dimension) : Bool :=
  let objectDimension := dimOrBoth dimension
  let isLight := currentDimension == Dimension.LIGHT
  objectDimension == DimValue.str "both"
    || (objectDimension == DimValue.str "light" && isLight)
    || (objectDimension == DimValue.str "dark" && !isLight)
    || (objectDimension == DimValue.num Dimension.LIGHT && isLight)
    || (objectDimension == DimValue.num Dimension.DARK && !isLight)

/-- The `shouldBeVisible` expression computed inline by
`updateObjectDimensionVisibility` (`GameSceneBuilder.ts` lines 755-762); the
source duplicates the policy formula rather than calling
`isObjectVisibleInCurrentDimension`. -/
def shouldBeVisible (dimension : DimValue) (currentDimension : Dimension) : Bool :=
  let objectDimension := dimOrBoth dimension
  let isLight := currentDimension == Dimension.LIGHT
  objectDimension == DimValue.str "both"
    || (objectDimension == DimValue.str "light" && isLight)
    || (objectDimension == DimValue.str "dark" && !isLight)
    || (objectDimension == DimValue.num Dimension.LIGHT && isLight)
    || (objectDimension == DimValue.num Dimension.DARK && !isLight)

/-- The two copies of the policy formula agree. -/
theorem shouldBeVisible_eq_isObjectVisible (v : DimValue) (d : Dimension) :
    shouldBeVisible v d = isObjectVisibleInCurrentDimension v d := rfl

/-- The render/physics state of one registered sprite: its `dimension`
property, its `visible` flag, and its physics body (`none` models a sprite
without a body, matching the `if (sprite.body)` guard; `some e` a body with
enable flag `e`). Sprites in the four static physics groups always carry a
static body. -/
structure SpriteState where
  dimension : DimValue
  visible : Bool
  bodyEnable : Option Bool
deriving DecidableEq

/-- The per-sprite action of `updateObjectDimensionVisibility`
(`GameSceneBuilder.ts` lines 753-777): set `visible` to `shouldBeVisible`
and, when a body exists, set its `enable` flag to the same value. -/
def updateSpriteForDimension (currentDimension : Dimension) (s : SpriteState) :
    SpriteState :=
  let vis := shouldBeVisible s.dimension currentDimension
  { s with visible := vis, bodyEnable := s.bodyEnable.map (fun _ => vis) }

/-- `updateObjectDimensionVisibility` over one physics group: one synchronous
pass setting visibility and physics-enable of every member. -/
def updateObjectDimensionVisibility (currentDimension : Dimension)
    (group : List SpriteState) : List SpriteState :=
  group.map (updateSpriteForDimension currentDimension)

/-- The dimension-relevant state of a `GameSceneBuilder`: the controller's
`currentDimension` plus the four registered entity groups. -/
structure BuilderState where
  currentDimension : Dimension
  platforms : List SpriteState
  collectibles : List SpriteState
  powerups : List SpriteState
  portals : List SpriteState
deriving DecidableEq

/-- `updateDimensionVisuals` (`GameSceneBuilder.ts` lines 728-743): the full
re-apply pass over all four groups (background colour and player tint are
out of scope). -/
def updateDimensionVisuals (s : BuilderState) : BuilderState :=
  { s with
    platforms := updateObjectDimensionVisibility s.currentDimension s.platforms
    collectibles := updateObjectDimensionVisibility s.currentDimension s.collectibles
    powerups := updateObjectDimensionVisibility s.currentDimension s.powerups
    portals := updateObjectDimensionVisibility s.currentDimension s.portals }

/-- `switchDimension` (`GameSceneBuilder.ts` lines 523-538): toggle the
current dimension, then run the full re-apply pass before returning. -/
def switchDimension (s : BuilderState) : BuilderState :=
  let toggled :=
    if s.currentDimension == Dimension.LIGHT then Dimension.DARK else Dimension.LIGHT
  updateDimensionVisuals { s with currentDimension := toggled }

/-- `setDimension` (`GameSceneBuilder.ts` lines 565-569): absolute set, then
the same re-apply pass. -/
def setDimension (s : BuilderState) (dimension : Dimension) : BuilderState :=
  updateDimensionVisuals { s with currentDimension := dimension }

/-- All registered entities of a builder state, across the four groups. -/
def allEntities (s : BuilderState) : List SpriteState :=
  s.platforms ++ s.collectibles ++ s.powerups ++ s.portals

/-- Modelled from the spec: the abstract three-valued dimension tag of §3. -/
inductive SpecTag where
  | light
  | dark
  | both
deriving DecidableEq, Fintype

/-- Modelled from the spec: the §4.1 collision-policy truth table
`isActive(entityDimension, currentDimension)`. -/
def specIsActive : SpecTag → Dimension → Bool
  | .light, .LIGHT => true
  | .light, .DARK => false
  | .dark, .LIGHT => false
  | .dark, .DARK => true
  | .both, _ => true

/-- The string representation a `SpecTag` takes on portal sprites. -/
def SpecTag.toStr : SpecTag → String
  | .light => "light"
  | .dark => "dark"
  | .both => "both"

/-- C1: the code's collision policy matches the §4.1 truth table on
string-represented tags, but an entity whose `dimension` property holds the
numeric enum member `Dimension.LIGHT` (= 0, falsy) is mapped to `"both"` by
the `|| "both"` fallback and is therefore reported active in the Dark
dimension, where the truth table requires `isActive(Light, Dark) = false`.
The branch `objectDimension === Dimension.LIGHT && isLight` of the source is
unreachable. This contradicts the source's own intent: levels tag platforms
`setDimension(Dimension.LIGHT)` with the comment "Only visible in light
dimension!". -/
theorem collision_policy_truth_table_violation :
    (∀ t : SpecTag, ∀ d : Dimension,
      isObjectVisibleInCurrentDimension (DimValue.str t.toStr) d = specIsActive t d)
    ∧ specIsActive SpecTag.light Dimension.DARK = false
    ∧ isObjectVisibleInCurrentDimension (DimValue.num Dimension.LIGHT) Dimension.DARK
        = true := by
  decide

/-- C9: an entity whose `dimension` property holds the numeric enum value
`Dimension.LIGHT` (0, falsy) is mapped to `"both"` by the `|| "both"`
fallback, so under either current dimension the interaction-time policy
accepts it (it is collectible) and the re-apply pass sets it visible and
sets its physics body enabled. -/
theorem numeric_light_tag_is_treated_as_both :
    ∀ d : Dimension,
      dimOrBoth (DimValue.num Dimension.LIGHT) = DimValue.str "both"
      ∧ isObjectVisibleInCurrentDimension (DimValue.num Dimension.LIGHT) d = true
      ∧ ∀ (v : Bool) (b : Option Bool),
          (updateSpriteForDimension d ⟨DimValue.num Dimension.LIGHT, v, b⟩).visible
              = true
          ∧ (updateSpriteForDimension d ⟨DimValue.num Dimension.LIGHT, v, b⟩).bodyEnable
              = b.map (fun _ => true) := by
  decide

/-- The JavaScript fallback `v || dflt` on a numeric property that may be
`undefined`: `undefined` and `0` are falsy and yield the default. -/
def jsOrInt (v : Option Int) (dflt : Int) : Int :=
  match v with
  | some n => if n = 0 then dflt else n
  | none => dflt

/-- The JavaScript fallback `v || dflt` on a possibly-`undefined` fractional
numeric property (the player's `moveSpeed`). -/
def jsOrRat (v : Option ℚ) (dflt : ℚ) : ℚ :=
  match v with
  | some x => if x = 0 then dflt else x
  | none => dflt

/-- The JavaScript fallback `v || dflt` on a possibly-`undefined` string
property (the powerup's `effect`). -/
def jsOrStr (v : Option String) (dflt : String) : String :=
  match v with
  | some s => if s = "" then dflt else s
  | none => dflt

/-- The dynamic properties the source stores on the player sprite:
`(player as any).score`, `.lives`, `.moveSpeed` (all `undefined` until first
written) and `.invincible`. -/
structure PlayerProps where
  score : Option Int
  lives : Option Int
  moveSpeed : Option ℚ
  invincible : Bool
deriving DecidableEq

/-- `setScore` (`GameSceneBuilder.ts` lines 978-985), for a state with a
player set: `currentScore = (player as any).score || 0`, then store either
`currentScore + score` or `score`. -/
def setScore (p : PlayerProps) (score : Int) (relative : Bool) : PlayerProps :=
  let currentScore := jsOrInt p.score 0
  { p with score := some (if relative then currentScore + score else score) }

/-- `setLives` (`GameSceneBuilder.ts` lines 992-999):
`currentLives = (player as any).lives || 3`, then store either
`currentLives + lives` or `lives`. -/
def setLives (p : PlayerProps) (lives : Int) (relative : Bool) : PlayerProps :=
  let currentLives := jsOrInt p.lives 3
  { p with lives := some (if relative then currentLives + lives else lives) }

/-- `addScore` (`GameSceneBuilder.ts` lines 1005-1007). -/
def addScore (p : PlayerProps) (points : Int) : PlayerProps :=
  setScore p points true

/-- `addLives` (`GameSceneBuilder.ts` lines 1013-1015). -/
def addLives (p : PlayerProps) (lives : Int) : PlayerProps :=
  setLives p lives true

/-- The lives/score effect of `respawnPlayer` (`GameSceneBuilder.ts`
lines 391-402): reposition the player (out of scope) and `addLives(-1)`. -/
def respawnPlayer (p : PlayerProps) : PlayerProps :=
  addLives p (-1)

/-- `getScore` (`GameSceneBuilder.ts` lines 1032-1034) with a player set:
`(player as any).score || 0`. -/
def getScore (p : PlayerProps) : Int :=
  jsOrInt p.score 0

/-- `getLives` (`GameSceneBuilder.ts` lines 1039-1041) with a player set:
`(player as any).lives || 3`. -/
def getLives (p : PlayerProps) : Int :=
  jsOrInt p.lives 3

/-- `isGameOver` (`GameSceneBuilder.ts` lines 1133-1135):
`getLives() <= 0`. -/
def isGameOver (p : PlayerProps) : Bool :=
  getLives p ≤ 0

/-- The score gain computed by `handleCoinCollection` (`GameSceneBuilder.ts`
lines 452-464): `coinValue = value || 1`, `coinDimension = dimension ||
"both"`; if `coinDimension === currentDimension` (strict equality against
the numeric enum) the gain is `coinValue + Math.floor(coinValue * 0.5)`,
otherwise `coinValue`. `Math.floor (v * 0.5)` on an integer JavaScript
number is flooring division by two, `Int.fdiv v 2`. -/
def coinScoreGain (value : Option Int) (dimension : DimValue)
    (currentDimension : Dimension) : Int :=
  let coinValue := jsOrInt value 1
  let coinDimension := dimOrBoth dimension
  if coinDimension.eqDim currentDimension then
    coinValue + Int.fdiv coinValue 2
  else
    coinValue

/-- One registered coin: its sprite identity and its dynamic `value` and
`dimension` properties (`CoinBuilder.build`). -/
structure CoinSprite where
  id : Nat
  value : Option Int
  dimension : DimValue
deriving DecidableEq

/-- The coin-collection-relevant state of a scene: the controller dimension,
the collectibles group, and the player properties. -/
structure CoinScene where
  currentDimension : Dimension
  coins : List CoinSprite
  player : PlayerProps
deriving DecidableEq

/-- `handleCoinCollection` (`GameSceneBuilder.ts` lines 434-469) on one coin:
`coinSprite.destroy()` removes the sprite from the collectibles group, then
`addScore` applies the (possibly bonused) gain; particles, sound and the
on-screen message are out of scope. -/
def handleCoinCollection (s : CoinScene) (c : CoinSprite) : CoinScene :=
  { s with
    coins := s.coins.filter (fun c2 => c2.id ≠ c.id)
    player := addScore s.player (coinScoreGain c.value c.dimension s.currentDimension) }

/-- One engine overlap event naming the coin with identity `id`
(`GameSceneBuilder.ts` lines 284-298): Phaser delivers overlap callbacks
only for sprites still present in the collectibles group, the wrapper
re-checks `isObjectVisibleInCurrentDimension`, and only then runs
`handleCoinCollection`. -/
def onCoinOverlap (s : CoinScene) (id : Nat) : CoinScene :=
  match s.coins.find? (fun c => c.id == id) with
  | none => s
  | some c =>
    if isObjectVisibleInCurrentDimension c.dimension s.currentDimension then
      handleCoinCollection s c
    else
      s

/-- The reversal action a `delayedCall` timer scheduled by
`handlePowerupCollection` performs when it fires. -/
inductive TimerAction where
  | clearInvincibility
deriving DecidableEq

/-- Firing a scheduled timer: the closure at `GameSceneBuilder.ts`
lines 511-514 sets `(player as any).invincible = false`. -/
def applyTimerAction : TimerAction → PlayerProps → PlayerProps
  | .clearInvincibility, p => { p with invincible := false }

/-- Result of the powerup effect dispatch: the updated player properties and
the list of `(delayMs, action)` timers scheduled via
`scene.time.delayedCall`. -/
structure PowerupOutcome where
  player : PlayerProps
  timers : List (Nat × TimerAction)
deriving DecidableEq

/-- The effect dispatch of `handlePowerupCollection` (`GameSceneBuilder.ts`
lines 494-517): `effect = (powerupSprite as any).effect || "none"`, then a
switch with cases `"extra-life"`/`"1up"` (`addLives(1)`), `"speed"`
(`moveSpeed = (moveSpeed || 160) * 1.5`, no timer), and `"invincibility"`
(`invincible = true` plus a 10000 ms `delayedCall` reversal). Every other
effect string, `"fire-power"` included, falls through with no action. -/
def applyPowerupEffect (effect : Option String) (p : PlayerProps) : PowerupOutcome :=
  let eff := jsOrStr effect "none"
  if eff = "extra-life" ∨ eff = "1up" then
    ⟨addLives p 1, []⟩
  else if eff = "speed" then
    ⟨{ p with moveSpeed := some (jsOrRat p.moveSpeed 160 * (3 / 2 : ℚ)) }, []⟩
  else if eff = "invincibility" then
    ⟨{ p with invincible := true }, [(10000, TimerAction.clearInvincibility)]⟩
  else
    ⟨p, []⟩

/-- One registered powerup: its sprite identity and its dynamic `effect`
and `dimension` properties (`PowerupBuilder.build`). -/
structure PowerupSprite where
  id : Nat
  effect : Option String
  dimension : DimValue
deriving DecidableEq

/-- The powerup-collection-relevant state of a scene: the controller
dimension, the powerups group, the player properties, and the reversal
timers scheduled so far. -/
structure PowerupScene where
  currentDimension : Dimension
  powerups : List PowerupSprite
  player : PlayerProps
  timers : List (Nat × TimerAction)
deriving DecidableEq

/-- `handlePowerupCollection` (`GameSceneBuilder.ts` lines 474-518) on one
powerup: `powerupSprite.destroy()` removes the sprite from the powerups
group, then the effect dispatch updates the player and schedules any
reversal timer; particles and sound are out of scope. -/
def handlePowerupCollection (s : PowerupScene) (pw : PowerupSprite) :
    PowerupScene :=
  let outcome := applyPowerupEffect pw.effect s.player
  { s with
    powerups := s.powerups.filter (fun p2 => p2.id ≠ pw.id)
    player := outcome.player
    timers := s.timers ++ outcome.timers }

/-- One engine overlap event naming the powerup with identity `id`
(`GameSceneBuilder.ts` lines 301-315): Phaser delivers overlap callbacks
only for sprites still present in the powerups group, the wrapper re-checks
`isObjectVisibleInCurrentDimension`, and only then runs
`handlePowerupCollection`. -/
def onPowerupOverlap (s : PowerupScene) (id : Nat) : PowerupScene :=
  match s.powerups.find? (fun p => p.id == id) with
  | none => s
  | some pw =>
    if isObjectVisibleInCurrentDimension pw.dimension s.currentDimension then
      handlePowerupCollection s pw
    else
      s

/-- C10: when the player's stored lives counter is exactly 0 (a falsy
JavaScript number), `getLives` returns the `lives || 3` default 3, so
`isGameOver` reports false: a player whose lives reach exactly 0 is never
reported as game over through this interface. -/
theorem zero_lives_reports_three_and_not_game_over :
    ∀ (sc : Option Int) (ms : Option ℚ) (inv : Bool),
      getLives ⟨sc, some 0, ms, inv⟩ = 3
      ∧ isGameOver ⟨sc, some 0, ms, inv⟩ = false := by
  intro sc ms inv
  exact ⟨rfl, rfl⟩

/-- C6 (failing input): a coin worth 10 whose `dimension` property holds the
numeric enum value `Dimension.LIGHT`, collected while the current dimension
is Light, awards only 10 and not the claimed 10 + floor(10 * 0.5) = 15: the
`|| "both"` fallback replaces the falsy tag 0 by `"both"`, which is not
strictly equal to the numeric current dimension, so the bonus branch is
never taken.  The same coin passes the interaction-time policy in the Dark
dimension, where the claim says it is inactive and cannot be collected.
The dark analogue works as claimed: a coin tagged `Dimension.DARK` (= 1,
truthy) collected in Dark awards 10 + 5 = 15. -/
theorem coin_dimension_bonus_divergence :
    coinScoreGain (some 10) (DimValue.num Dimension.LIGHT) Dimension.LIGHT = 10
    ∧ coinScoreGain (some 10) (DimValue.num Dimension.LIGHT) Dimension.LIGHT ≠ 15
    ∧ isObjectVisibleInCurrentDimension (DimValue.num Dimension.LIGHT) Dimension.DARK
        = true
    ∧ coinScoreGain (some 10) (DimValue.num Dimension.DARK) Dimension.DARK = 15 := by
  decide

/-- After `destroy()` removes every sprite with the collected identity from
the collectibles group, a later overlap lookup for that identity finds
nothing. -/
theorem find?_after_destroy (l : List CoinSprite) (id : Nat) :
    (l.filter (fun c2 => c2.id ≠ id)).find? (fun c => c.id == id) = none := by
  rw [List.find?_eq_none]
  intro c hc
  rcases List.mem_filter.mp hc with ⟨_, hne⟩
  simp only [ne_eq, decide_not, Bool.not_eq_true', decide_eq_false_iff_not] at hne
  simp [hne]

/-- An overlap event either leaves the scene unchanged, or the collected
coin's identity is gone from the collectibles group afterwards. -/
theorem onCoinOverlap_no_op_or_removed (s : CoinScene) (id : Nat) :
    onCoinOverlap s id = s
    ∨ (onCoinOverlap s id).coins.find? (fun c => c.id == id) = none := by
  unfold onCoinOverlap
  cases hf : s.coins.find? (fun c => c.id == id) with
  | none => exact Or.inl rfl
  | some c =>
    have hid : c.id = id := by
      have := List.find?_some hf
      simpa using this
    by_cases hv :
        isObjectVisibleInCurrentDimension c.dimension s.currentDimension = true
    · right
      simp only [hv, if_true, handleCoinCollection, hid]
      exact find?_after_destroy s.coins id
    · left
      simp [hv]

/-- Coin half of the at-most-once property: a successful collection
destroys the sprite and adds the score in the same synchronous handler, so
the collected identity is absent from the collectibles group immediately
afterwards, and a second overlap event referencing the same instance is a
no-op. -/
theorem coin_collection_at_most_once (s : CoinScene) (id : Nat) :
    onCoinOverlap (onCoinOverlap s id) id = onCoinOverlap s id
    ∧ ∀ c, s.coins.find? (fun c2 => c2.id == id) = some c →
        isObjectVisibleInCurrentDimension c.dimension s.currentDimension = true →
        (onCoinOverlap s id).coins.find? (fun c2 => c2.id == id) = none := by
  constructor
  · rcases onCoinOverlap_no_op_or_removed s id with h | h
    · rw [h]
      exact h
    · conv_lhs => rw [onCoinOverlap, h]
  · intro c hf hv
    have hid : c.id = id := by
      have := List.find?_some hf
      simpa using this
    simp only [onCoinOverlap, hf, hv, if_true, handleCoinCollection, hid]
    exact find?_after_destroy s.coins id

/-- After `destroy()` removes every powerup sprite with the collected
identity from the powerups group, a later overlap lookup for that identity
finds nothing. -/
theorem find?_after_destroy_powerup (l : List PowerupSprite) (id : Nat) :
    (l.filter (fun p2 => p2.id ≠ id)).find? (fun p => p.id == id) = none := by
  rw [List.find?_eq_none]
  intro pw hpw
  rcases List.mem_filter.mp hpw with ⟨_, hne⟩
  simp only [ne_eq, decide_not, Bool.not_eq_true', decide_eq_false_iff_not] at hne
  simp [hne]

/-- A powerup overlap event either leaves the scene unchanged, or the
collected powerup's identity is gone from the powerups group afterwards. -/
theorem onPowerupOverlap_no_op_or_removed (s : PowerupScene) (id : Nat) :
    onPowerupOverlap s id = s
    ∨ (onPowerupOverlap s id).powerups.find? (fun p => p.id == id) = none := by
  unfold onPowerupOverlap
  cases hf : s.powerups.find? (fun p => p.id == id) with
  | none => exact Or.inl rfl
  | some pw =>
    have hid : pw.id = id := by
      have := List.find?_some hf
      simpa using this
    by_cases hv :
        isObjectVisibleInCurrentDimension pw.dimension s.currentDimension = true
    · right
      simp only [hv, if_true, handlePowerupCollection, hid]
      exact find?_after_destroy_powerup s.powerups id
    · left
      simp [hv]

/-- Powerup half of the at-most-once property: a successful collection
destroys the sprite and applies the lives/effect dispatch in the same
synchronous handler, so the collected identity is absent from the powerups
group immediately afterwards, and a second overlap event referencing the
same instance is a no-op. -/
theorem powerup_collection_at_most_once (s : PowerupScene) (id : Nat) :
    onPowerupOverlap (onPowerupOverlap s id) id = onPowerupOverlap s id
    ∧ ∀ pw, s.powerups.find? (fun p2 => p2.id == id) = some pw →
        isObjectVisibleInCurrentDimension pw.dimension s.currentDimension = true →
        (onPowerupOverlap s id).powerups.find? (fun p2 => p2.id == id) = none := by
  constructor
  · rcases onPowerupOverlap_no_op_or_removed s id with h | h
    · rw [h]
      exact h
    · conv_lhs => rw [onPowerupOverlap, h]
  · intro pw hf hv
    have hid : pw.id = id := by
      have := List.find?_some hf
      simpa using this
    simp only [onPowerupOverlap, hf, hv, if_true, handlePowerupCollection, hid]
    exact find?_after_destroy_powerup s.powerups id

/-- C3: collection is idempotent per collectible instance, for coins and
powerups alike.  A successful collection destroys the sprite and applies
its score/lives effect in the same synchronous handler, so the collected
identity is absent from its registry group immediately afterwards and a
second overlap event referencing the same instance is a no-op: the effect
of any single collectible instance is applied at most once. -/
theorem collectible_collection_at_most_once (s : CoinScene) (t : PowerupScene)
    (id : Nat) :
    (onCoinOverlap (onCoinOverlap s id) id = onCoinOverlap s id
      ∧ ∀ c, s.coins.find? (fun c2 => c2.id == id) = some c →
          isObjectVisibleInCurrentDimension c.dimension s.currentDimension = true →
          (onCoinOverlap s id).coins.find? (fun c2 => c2.id == id) = none)
    ∧ (onPowerupOverlap (onPowerupOverlap t id) id = onPowerupOverlap t id
      ∧ ∀ pw, t.powerups.find? (fun p2 => p2.id == id) = some pw →
          isObjectVisibleInCurrentDimension pw.dimension t.currentDimension = true →
          (onPowerupOverlap t id).powerups.find? (fun p2 => p2.id == id) = none) :=
  ⟨coin_collection_at_most_once s id, powerup_collection_at_most_once t id⟩

/-- Witness for C3 at concrete scenes: a coin of identity 7 tagged `"both"`
and a `1up` powerup of identity 7 tagged `"both"`, each collected in the
Light dimension — the second overlap is a no-op and the identity is gone
from each registry. -/
theorem collectible_collection_at_most_once_witness :
    ((onCoinOverlap
        (onCoinOverlap
          ⟨Dimension.LIGHT, [⟨7, some 5, DimValue.str "both"⟩], ⟨none, none, none, false⟩⟩
          7) 7
      = onCoinOverlap
          ⟨Dimension.LIGHT, [⟨7, some 5, DimValue.str "both"⟩], ⟨none, none, none, false⟩⟩
          7)
      ∧ (onCoinOverlap
          ⟨Dimension.LIGHT, [⟨7, some 5, DimValue.str "both"⟩], ⟨none, none, none, false⟩⟩
          7).coins.find? (fun c2 => c2.id == 7) = none)
    ∧ ((onPowerupOverlap
        (onPowerupOverlap
          ⟨Dimension.LIGHT, [⟨7, some "1up", DimValue.str "both"⟩],
            ⟨none, none, none, false⟩, []⟩
          7) 7
      = onPowerupOverlap
          ⟨Dimension.LIGHT, [⟨7, some "1up", DimValue.str "both"⟩],
            ⟨none, none, none, false⟩, []⟩
          7)
      ∧ (onPowerupOverlap
          ⟨Dimension.LIGHT, [⟨7, some "1up", DimValue.str "both"⟩],
            ⟨none, none, none, false⟩, []⟩
          7).powerups.find? (fun p2 => p2.id == 7) = none) :=
  ⟨⟨(collectible_collection_at_most_once
      ⟨Dimension.LIGHT, [⟨7, some 5, DimValue.str "both"⟩], ⟨none, none, none, false⟩⟩
      ⟨Dimension.LIGHT, [⟨7, some "1up", DimValue.str "both"⟩],
        ⟨none, none, none, false⟩, []⟩
      7).1.1,
    (collectible_collection_at_most_once
      ⟨Dimension.LIGHT, [⟨7, some 5, DimValue.str "both"⟩], ⟨none, none, none, false⟩⟩
      ⟨Dimension.LIGHT, [⟨7, some "1up", DimValue.str "both"⟩],
        ⟨none, none, none, false⟩, []⟩
      7).1.2 ⟨7, some 5, DimValue.str "both"⟩ (by decide) (by decide)⟩,
   ⟨(collectible_collection_at_most_once
      ⟨Dimension.LIGHT, [⟨7, some 5, DimValue.str "both"⟩], ⟨none, none, none, false⟩⟩
      ⟨Dimension.LIGHT, [⟨7, some "1up", DimValue.str "both"⟩],
        ⟨none, none, none, false⟩, []⟩
      7).2.1,
    (collectible_collection_at_most_once
      ⟨Dimension.LIGHT, [⟨7, some 5, DimValue.str "both"⟩], ⟨none, none, none, false⟩⟩
      ⟨Dimension.LIGHT, [⟨7, some "1up", DimValue.str "both"⟩],
        ⟨none, none, none, false⟩, []⟩
      7).2.2 ⟨7, some "1up", DimValue.str "both"⟩ (by decide) (by decide)⟩⟩

/-- C7 (counterexample): collecting a `"speed"` powerup changes the player's
state — `moveSpeed` becomes `(undefined || 160) * 1.5 = 240` — but schedules
no reversal timer at all, so the speed effect is not time-bounded. -/
theorem speed_powerup_not_time_bounded :
    (applyPowerupEffect (some "speed") ⟨none, none, none, false⟩).player.moveSpeed
        = some 240
    ∧ (applyPowerupEffect (some "speed") ⟨none, none, none, false⟩).timers = [] := by
  constructor
  · show some (jsOrRat none 160 * (3 / 2 : ℚ)) = some 240
    norm_num [jsOrRat]
  · rfl

/-- C7 (amended): of the three effects the claim names, only `invincibility`
is time-bounded — it sets the flag and schedules one 10000 ms reversal that
clears it again; `"speed"` multiplies `moveSpeed` permanently with no
scheduled reversal; `"fire-power"` matches no case of the dispatch and does
nothing at all. -/
theorem only_invincibility_is_time_bounded (p : PlayerProps) :
    (applyPowerupEffect (some "invincibility") p).player.invincible = true
    ∧ (applyPowerupEffect (some "invincibility") p).timers
        = [(10000, TimerAction.clearInvincibility)]
    ∧ (applyTimerAction TimerAction.clearInvincibility
        (applyPowerupEffect (some "invincibility") p).player).invincible = false
    ∧ (applyPowerupEffect (some "speed") p).timers = []
    ∧ applyPowerupEffect (some "fire-power") p = ⟨p, []⟩ := by
  exact ⟨rfl, rfl, rfl, rfl, rfl⟩

/-- The game-state operations the lives/score claim quantifies over: the
fluent setters, `respawnPlayer`, and the two collection handlers (their
lives/score effect). -/
inductive GameOp where
  | setScoreOp (v : Int) (relative : Bool)
  | setLivesOp (v : Int) (relative : Bool)
  | addScoreOp (v : Int)
  | addLivesOp (v : Int)
  | respawnOp
  | collectCoin (value : Option Int) (dimension : DimValue)
  | collectPowerup (effect : Option String)

/-- The lives/score effect of one operation, as implemented by the
source. -/
def applyOp (currentDimension : Dimension) (p : PlayerProps) : GameOp → PlayerProps
  | .setScoreOp v rel => setScore p v rel
  | .setLivesOp v rel => setLives p v rel
  | .addScoreOp v => addScore p v
  | .addLivesOp v => addLives p v
  | .respawnOp => respawnPlayer p
  | .collectCoin value dimension =>
      addScore p (coinScoreGain value dimension currentDimension)
  | .collectPowerup effect => (applyPowerupEffect effect p).player

/-- Run a sequence of operations in order. -/
def runOps (currentDimension : Dimension) (p : PlayerProps)
    (ops : List GameOp) : PlayerProps :=
  ops.foldl (applyOp currentDimension) p

/-- The operation carries no negative externally-supplied amount: absolute
and relative score/lives arguments are nonnegative, and a collected coin's
effective `value || 1` is nonnegative.  `respawnPlayer` (which subtracts a
life internally) and powerup collection are unrestricted. -/
def opNonneg : GameOp → Prop
  | .setScoreOp v _ => 0 ≤ v
  | .setLivesOp v _ => 0 ≤ v
  | .addScoreOp v => 0 ≤ v
  | .addLivesOp v => 0 ≤ v
  | .respawnOp => True
  | .collectCoin value _ => 0 ≤ jsOrInt value 1
  | .collectPowerup _ => True

/-- The stored counters are nonnegative whenever they are set at all. -/
def countersOK (p : PlayerProps) : Prop :=
  (∀ n, p.score = some n → 0 ≤ n) ∧ (∀ n, p.lives = some n → 0 ≤ n)

/-- With nonnegative-or-unset stored score, the `score || 0` read is
nonnegative. -/
theorem jsOrInt_score_nonneg (p : PlayerProps) (hp : countersOK p) :
    0 ≤ jsOrInt p.score 0 := by
  cases hs : p.score with
  | none => simp [jsOrInt]
  | some n =>
    have := hp.1 n hs
    simp only [jsOrInt]
    split <;> omega

/-- With nonnegative-or-unset stored lives, the `lives || 3` read is at
least 1 (0 falls back to the default 3). -/
theorem jsOrInt_lives_pos (p : PlayerProps) (hp : countersOK p) :
    1 ≤ jsOrInt p.lives 3 := by
  cases hs : p.lives with
  | none => simp [jsOrInt]
  | some n =>
    have := hp.2 n hs
    simp only [jsOrInt]
    split <;> omega

/-- A collected coin with nonnegative effective value contributes a
nonnegative score gain (the 50 percent bonus floors a nonnegative
number). -/
theorem coinScoreGain_nonneg (value : Option Int) (dimension : DimValue)
    (currentDimension : Dimension) (h : 0 ≤ jsOrInt value 1) :
    0 ≤ coinScoreGain value dimension currentDimension := by
  simp only [coinScoreGain]
  split
  · have := Int.fdiv_nonneg h (by norm_num : (0:Int) ≤ 2)
    omega
  · exact h

/-- One restricted operation preserves nonnegativity of the stored
counters. -/
theorem applyOp_preserves (currentDimension : Dimension) (p : PlayerProps)
    (op : GameOp) (hp : countersOK p) (hop : opNonneg op) :
    countersOK (applyOp currentDimension p op) := by
  have hsc := jsOrInt_score_nonneg p hp
  have hlv := jsOrInt_lives_pos p hp
  cases op with
  | setScoreOp v rel =>
    refine ⟨fun n hn => ?_, hp.2⟩
    simp only [applyOp, setScore, Option.some.injEq] at hn
    have hv : 0 ≤ v := hop
    cases rel
    · simp_all
    · simp_all
      omega
  | setLivesOp v rel =>
    refine ⟨hp.1, fun n hn => ?_⟩
    simp only [applyOp, setLives, Option.some.injEq] at hn
    have hv : 0 ≤ v := hop
    cases rel
    · simp_all
    · simp_all
      omega
  | addScoreOp v =>
    refine ⟨fun n hn => ?_, hp.2⟩
    simp only [applyOp, addScore, setScore, Option.some.injEq, if_true] at hn
    have hv : 0 ≤ v := hop
    simp_all
    omega
  | addLivesOp v =>
    refine ⟨hp.1, fun n hn => ?_⟩
    simp only [applyOp, addLives, setLives, Option.some.injEq, if_true] at hn
    have hv : 0 ≤ v := hop
    simp_all
    omega
  | respawnOp =>
    refine ⟨hp.1, fun n hn => ?_⟩
    simp only [applyOp, respawnPlayer, addLives, setLives, Option.some.injEq,
      if_true] at hn
    omega
  | collectCoin value dimension =>
    refine ⟨fun n hn => ?_, hp.2⟩
    have hgain := coinScoreGain_nonneg value dimension currentDimension hop
    simp only [applyOp, addScore, setScore, Option.some.injEq, if_true] at hn
    simp_all
    omega
  | collectPowerup effect =>
    simp only [applyOp, applyPowerupEffect]
    split
    · exact ⟨hp.1, fun n hn => by
        simp only [addLives, setLives, Option.some.injEq, if_true] at hn
        omega⟩
    · split
      · exact ⟨hp.1, hp.2⟩
      · split
        · exact ⟨hp.1, hp.2⟩
        · exact ⟨hp.1, hp.2⟩

/-- C8 (counterexample): a single `setLives(-1)` call stores a negative
lives counter, so the claim that no operation sequence can drive the
counters below 0 fails; the negative value is even read back by `getLives`
(negative numbers are truthy, so the `|| 3` fallback does not mask it). -/
theorem negative_setLives_counterexample :
    (setLives ⟨none, some 3, none, false⟩ (-1) false).lives = some (-1)
    ∧ getLives (setLives ⟨none, some 3, none, false⟩ (-1) false) = -1 := by
  decide

/-- C8 (amended): starting from unset-or-nonnegative stored counters, any
sequence of `respawnPlayer`, coin and powerup collections with nonnegative
effective coin values, and `setScore`/`setLives`/`addScore`/`addLives` calls
with nonnegative arguments keeps the stored lives and score counters
nonnegative. -/
theorem lives_score_nonneg_preserved (currentDimension : Dimension)
    (p : PlayerProps) (ops : List GameOp) (hp : countersOK p)
    (hops : ∀ op ∈ ops, opNonneg op) :
    countersOK (runOps currentDimension p ops) := by
  induction ops generalizing p with
  | nil => exact hp
  | cons op rest ih =>
    exact ih (applyOp currentDimension p op)
      (applyOp_preserves currentDimension p op hp (hops op (List.mem_cons_self op rest)))
      (fun o ho => hops o (List.mem_cons_of_mem op ho))

/-- Witness for C8 (amended) at a concrete run: a fresh player, a respawn
and a 5-point award leave the counters nonnegative. -/
theorem lives_score_nonneg_preserved_witness :
    countersOK ⟨none, none, none, false⟩
    ∧ (∀ op ∈ ([GameOp.respawnOp, GameOp.addScoreOp 5] : List GameOp), opNonneg op)
    ∧ countersOK (runOps Dimension.LIGHT ⟨none, none, none, false⟩
        [GameOp.respawnOp, GameOp.addScoreOp 5]) := by
  have hp : countersOK ⟨none, none, none, false⟩ :=
    ⟨(fun n hn => by cases hn), (fun n hn => by cases hn)⟩
  have hops : ∀ op ∈ ([GameOp.respawnOp, GameOp.addScoreOp 5] : List GameOp),
      opNonneg op := by
    intro op hop
    rcases List.mem_cons.mp hop with rfl | hop
    · trivial
    rcases List.mem_cons.mp hop with rfl | hop
    · norm_num [opNonneg]
    · cases hop
  exact ⟨hp, hops,
    lives_score_nonneg_preserved Dimension.LIGHT ⟨none, none, none, false⟩
      [GameOp.respawnOp, GameOp.addScoreOp 5] hp hops⟩

/-- The guard-relevant properties `PortalBuilder.build` stores on a portal
sprite: `isActive`, `lastActivated` (`undefined` until the first
activation), and the optional activation callback.  The callback is
modelled by its observable behaviour: `none` means no callback was
configured (the handler then falls back to `switchDimension()`);
`some thr` means a callback exists and raises an error iff `thr`. -/
structure PortalSprite where
  isActive : Bool
  lastActivated : Option Nat
  onActivate : Option Bool
deriving DecidableEq

/-- JavaScript truthiness of the `lastActivated` property: `undefined` and
the number 0 are falsy. -/
def jsTruthyNat : Option Nat → Bool
  | none => false
  | some n => n ≠ 0

/-- What one call of `handlePortalCollision` did: the updated portal sprite,
whether the activation callback was invoked, whether an error escaped the
handler, and whether the no-callback fallback `switchDimension()` ran. -/
structure PortalOutcome where
  portal : PortalSprite
  callbackInvoked : Bool
  errorPropagated : Bool
  switchedDimension : Bool
deriving DecidableEq

/-- `handlePortalCollision` (`GameSceneBuilder.ts` lines 796-860) at event
time `now` (`Date.now()`).  Inactive portals are ignored.  The cooldown
guard is `lastActivated && now - lastActivated < 1000`.  (JavaScript
computes `now - lastActivated` as a possibly negative number; truncated
`Nat` subtraction gives the same Boolean: both are `< 1000` exactly when
`now < lastActivated + 1000`, and the guard is only reached when
`lastActivated` is truthy.)  On activation the handler first commits
`lastActivated = now`, then either invokes the callback inside
`try { ... } catch` — so an error is logged and never escapes — or, with no
callback configured, switches the dimension as a fallback. -/
def handlePortalCollision (p : PortalSprite) (now : Nat) : PortalOutcome :=
  if !p.isActive then
    ⟨p, false, false, false⟩
  else if jsTruthyNat p.lastActivated && (now - p.lastActivated.getD 0 < 1000) then
    ⟨p, false, false, false⟩
  else
    let committed := { p with lastActivated := some now }
    match p.onActivate with
    | some _ => ⟨committed, true, false, false⟩
    | none => ⟨committed, false, false, true⟩

/-- C4 (counterexample): a portal whose first overlap arrives at timestamp
0 commits `lastActivated = 0`, which is falsy, so the cooldown guard is
skipped and a second overlap only 999 ms later invokes the callback a
second time, although the two events differ by less than the 1000 ms
window. -/
theorem portal_cooldown_counterexample :
    (handlePortalCollision ⟨true, none, some false⟩ 0).callbackInvoked = true
    ∧ (handlePortalCollision
        (handlePortalCollision ⟨true, none, some false⟩ 0).portal
        999).callbackInvoked = true := by
  decide

/-- C4 (amended): for an active portal with a configured callback and no
prior activation, receiving two overlap events in time order whose first
timestamp is nonzero (`Date.now()` is 0 only at the 1970 epoch instant;
`lastActivated = 0` is falsy and disables the guard), the callback is
invoked exactly once when the events are less than 1000 ms apart and twice
when they are at least 1000 ms apart. -/
theorem portal_cooldown (p : PortalSprite) (t1 t2 : Nat)
    (hact : p.isActive = true) (hlast : p.lastActivated = none)
    (hcb : p.onActivate.isSome = true) (h1 : 1 ≤ t1) (_hord : t1 ≤ t2) :
    ((t2 - t1 < 1000 →
        (handlePortalCollision p t1).callbackInvoked = true
        ∧ (handlePortalCollision (handlePortalCollision p t1).portal
            t2).callbackInvoked = false)
      ∧ (1000 ≤ t2 - t1 →
        (handlePortalCollision p t1).callbackInvoked = true
        ∧ (handlePortalCollision (handlePortalCollision p t1).portal
            t2).callbackInvoked = true)) := by
  rcases Option.isSome_iff_exists.mp hcb with ⟨thr, hthr⟩
  have hstep1 : handlePortalCollision p t1
      = ⟨{ p with lastActivated := some t1 }, true, false, false⟩ := by
    simp [handlePortalCollision, hact, hlast, jsTruthyNat, hthr]
  constructor
  · intro hwin
    refine ⟨by rw [hstep1], ?_⟩
    rw [hstep1]
    simp only [handlePortalCollision, hact, jsTruthyNat, Option.getD_some]
    have ht1 : (t1 ≠ 0) = True := by simp; omega
    simp [ht1, hwin]
  · intro hwin
    refine ⟨by rw [hstep1], ?_⟩
    rw [hstep1]
    simp only [handlePortalCollision, hact, jsTruthyNat, Option.getD_some]
    have hnot : ¬ (t2 - t1 < 1000) := by omega
    simp [hnot, hthr]

/-- Witness for C4 (amended): a fresh active portal overlapped at times 1
and 500 (within the window) — the theorem instance yields one invocation. -/
theorem portal_cooldown_witness :
    ((true : Bool) = true ∧ (1:Nat) ≤ 1 ∧ (1:Nat) ≤ 500 ∧ (500 - 1 < 1000))
    ∧ ((handlePortalCollision ⟨true, none, some false⟩ 1).callbackInvoked = true
        ∧ (handlePortalCollision
            (handlePortalCollision ⟨true, none, some false⟩ 1).portal
            500).callbackInvoked = false) :=
  ⟨by decide,
   (portal_cooldown ⟨true, none, some false⟩ 1 500 rfl rfl rfl (by decide)
      (by decide)).1 (by decide)⟩

/-- C5 (counterexample): a portal activated at timestamp 0 by a throwing
callback commits `lastActivated = 0` and swallows the error, yet a second
overlap 500 ms later — inside the cooldown window — invokes the callback
again, because the committed timestamp 0 is falsy and the guard
`lastActivated && ...` fails open.  So the claim's conclusion that
re-triggering within the window is impossible does not hold as stated. -/
theorem portal_commit_counterexample :
    (handlePortalCollision ⟨true, none, some true⟩ 0).portal.lastActivated = some 0
    ∧ (handlePortalCollision ⟨true, none, some true⟩ 0).errorPropagated = false
    ∧ (handlePortalCollision
        (handlePortalCollision ⟨true, none, some true⟩ 0).portal
        500).callbackInvoked = true := by
  decide

/-- C5 (amended): whenever an activation proceeds (active portal, guard not
blocking) with any configured callback — a throwing one included — the
handler commits `lastActivated = now` in the returned state, invokes the
callback, and lets no error escape; and provided the activation timestamp
is nonzero, a later overlap within the 1000 ms window does not re-invoke
the callback. -/
theorem portal_commit_then_invoke (p : PortalSprite) (now t2 : Nat) (thr : Bool)
    (hact : p.isActive = true) (hcb : p.onActivate = some thr)
    (hguard : (jsTruthyNat p.lastActivated
        && (now - p.lastActivated.getD 0 < 1000)) = false)
    (h1 : 1 ≤ now) (_hord : now ≤ t2) (hwin : t2 - now < 1000) :
    (handlePortalCollision p now).portal.lastActivated = some now
    ∧ (handlePortalCollision p now).errorPropagated = false
    ∧ (handlePortalCollision p now).callbackInvoked = true
    ∧ (handlePortalCollision
        (handlePortalCollision p now).portal t2).callbackInvoked = false := by
  have hstep1 : handlePortalCollision p now
      = ⟨{ p with lastActivated := some now }, true, false, false⟩ := by
    simp [handlePortalCollision, hact, hguard, hcb]
  refine ⟨by rw [hstep1], by rw [hstep1], by rw [hstep1], ?_⟩
  rw [hstep1]
  simp only [handlePortalCollision, hact, jsTruthyNat, Option.getD_some]
  have hnow : (now ≠ 0) = True := by simp; omega
  simp [hnow, hwin]

/-- Witness for C5 (amended): a fresh active portal whose callback throws,
activated at time 1 and overlapped again at time 900. -/
theorem portal_commit_then_invoke_witness :
    ((true : Bool) = true ∧ (1:Nat) ≤ 1 ∧ (1:Nat) ≤ 900 ∧ (900 - 1 < 1000))
    ∧ ((handlePortalCollision ⟨true, none, some true⟩ 1).portal.lastActivated
          = some 1
        ∧ (handlePortalCollision ⟨true, none, some true⟩ 1).errorPropagated = false
        ∧ (handlePortalCollision ⟨true, none, some true⟩ 1).callbackInvoked = true
        ∧ (handlePortalCollision
            (handlePortalCollision ⟨true, none, some true⟩ 1).portal
            900).callbackInvoked = false) :=
  ⟨by decide,
   portal_commit_then_invoke ⟨true, none, some true⟩ 1 900 true rfl rfl
     (by decide) (by decide) (by decide) (by decide)⟩

/-- One updated sprite is internally consistent: its visibility equals its
physics-enable flag (when a body exists), and both equal the interaction
policy at its tag and the dimension the pass was run with. -/
theorem updateSprite_consistent (cur : Dimension) (e0 : SpriteState) (b : Bool)
    (hb : (updateSpriteForDimension cur e0).bodyEnable = some b) :
    (updateSpriteForDimension cur e0).visible = b
    ∧ (updateSpriteForDimension cur e0).visible
        = isObjectVisibleInCurrentDimension
            (updateSpriteForDimension cur e0).dimension cur := by
  refine ⟨?_, rfl⟩
  simp only [updateSpriteForDimension] at hb ⊢
  cases hx : e0.bodyEnable with
  | none => rw [hx] at hb; simp at hb
  | some x =>
    rw [hx] at hb
    simpa using hb

/-- Every member of a group after the re-apply pass is the update of some
previous member. -/
theorem mem_updateDimensionVisuals (s : BuilderState) (e : SpriteState)
    (h : e ∈ allEntities (updateDimensionVisuals s)) :
    ∃ e0, e = updateSpriteForDimension s.currentDimension e0 := by
  simp only [allEntities, updateDimensionVisuals, updateObjectDimensionVisibility,
    List.mem_append, List.mem_map] at h
  rcases h with ((⟨e0, _, he⟩ | ⟨e0, _, he⟩) | ⟨e0, _, he⟩) | ⟨e0, _, he⟩ <;>
    exact ⟨e0, he.symm⟩

/-- After the full re-apply pass, every registered entity with a physics
body has visibility equal to physics-enable equal to the policy at the
(unchanged) current dimension. -/
theorem consistency_after_update (s : BuilderState) (e : SpriteState) (b : Bool)
    (hmem : e ∈ allEntities (updateDimensionVisuals s))
    (hb : e.bodyEnable = some b) :
    e.visible = b
    ∧ e.visible = isObjectVisibleInCurrentDimension e.dimension
        (updateDimensionVisuals s).currentDimension := by
  rcases mem_updateDimensionVisuals s e hmem with ⟨e0, he⟩
  subst he
  exact updateSprite_consistent s.currentDimension e0 b hb

/-- C2: after `switchDimension()` and after `setDimension(d)` — both of
which run the full synchronous re-apply pass before returning — every
registered entity carrying a physics body satisfies
`visualVisible = physicsEnabled = isActive(tag, currentDimension)`, where
`isActive` is the interaction-time policy
`isObjectVisibleInCurrentDimension`; visibility and physics-enable never
disagree. -/
theorem dimension_switch_consistency (s : BuilderState) (d : Dimension)
    (e : SpriteState) (b : Bool) :
    (e ∈ allEntities (switchDimension s) → e.bodyEnable = some b →
      e.visible = b
      ∧ e.visible = isObjectVisibleInCurrentDimension e.dimension
          (switchDimension s).currentDimension)
    ∧ (e ∈ allEntities (setDimension s d) → e.bodyEnable = some b →
      e.visible = b
      ∧ e.visible = isObjectVisibleInCurrentDimension e.dimension
          (setDimension s d).currentDimension) := by
  constructor
  · intro hmem hb
    exact consistency_after_update _ e b hmem hb
  · intro hmem hb
    exact consistency_after_update _ e b hmem hb

/-- Witness for C2 at a concrete state: one light-only platform with an
enabled static body, switched from Light to Dark — the entity becomes
invisible, physics-disabled, and the policy agrees. -/
theorem dimension_switch_consistency_witness :
    (⟨DimValue.str "light", false, some false⟩ : SpriteState).visible = false
    ∧ (⟨DimValue.str "light", false, some false⟩ : SpriteState).visible
        = isObjectVisibleInCurrentDimension
            (⟨DimValue.str "light", false, some false⟩ : SpriteState).dimension
            (switchDimension ⟨Dimension.LIGHT,
              [⟨DimValue.str "light", true, some true⟩], [], [], []⟩).currentDimension :=
  (dimension_switch_consistency
      ⟨Dimension.LIGHT, [⟨DimValue.str "light", true, some true⟩], [], [], []⟩
      Dimension.LIGHT
      ⟨DimValue.str "light", false, some false⟩ false).1
    (by decide) (by decide)

end Quantum
